import Mathlib

/-!
Shallow embedding of the `datapipelines` Python library
(`datapipelines/queries.py` and `datapipelines/pipelines.py`) in Lean 4,
together with proofs checking statements of the library's specification
against the embedded code.

Modelling conventions, used throughout:

* Python `dict`s are insertion-ordered association lists (`alookup` /
  `ainsert` below reproduce `d[k]`, `k in d` and `d[k] = v`).
* Python runtime values appearing in queries are drawn from a small closed
  universe `Value` (ints, strings, enum members); Python classes used as
  type constraints are drawn from `PyType`.  `int("x")`-style constructor
  calls are modelled by `pyCall`, which fails exactly when the Python call
  raises, e.g. `int` applied to a non-numeric string raises `ValueError`.
* Exceptions are `Except` results; an error constructor per Python
  exception class that the embedded code can raise.
* `copy.deepcopy` on immutable query values is the identity (`pydeepcopy`);
  for the one claim about aliasing of default values an explicit
  allocation-counter model of `deepcopy` is used instead
  (`_DefaultValueNode.evaluate_alloc`).
-/

namespace Datapipelines

/-- Python `dict` lookup `d[k]` / `d.get(k)` over an insertion-ordered
association list. -/
def alookup {κ α : Type} [DecidableEq κ] : List (κ × α) → κ → Option α
  | [], _ => none
  | (k, v) :: rest, key => if k = key then some v else alookup rest key

/-- Python `dict` assignment `d[k] = v`: replaces in place when the key is
present (keeping its position), appends otherwise. -/
def ainsert {κ α : Type} [DecidableEq κ] : List (κ × α) → κ → α → List (κ × α)
  | [], key, v => [(key, v)]
  | (k, v0) :: rest, key, v =>
      if k = key then (key, v) :: rest else (k, v0) :: ainsert rest key v

/-! ## Value and type universe (the data appearing in queries) -/

/-- Python runtime values stored in a query mapping. An enum member carries
its enum class (as the list of member names) and its own name. -/
inductive Value where
  | vInt (n : Int)
  | vStr (s : String)
  | vEnum (members : List String) (name : String)
deriving DecidableEq, Repr

/-- Python classes used as query type constraints. `tEnum members` is an
`Enum` subclass with the given member names. -/
inductive PyType where
  | tInt
  | tStr
  | tEnum (members : List String)
deriving DecidableEq, Repr

/-- Python `isinstance(value, type)`. -/
def isinstance : Value → PyType → Bool
  | .vInt _, .tInt => true
  | .vStr _, .tStr => true
  | .vEnum ms _, .tEnum ms2 => ms = ms2
  | _, _ => false

/-- Python builtin `type(value)` used as a class. -/
def typeOf : Value → PyType
  | .vInt _ => .tInt
  | .vStr _ => .tStr
  | .vEnum ms _ => .tEnum ms

/-- Python `str(value)`. -/
def pyStr : Value → String
  | .vInt n => toString n
  | .vStr s => s
  | .vEnum _ n => n

/-- Digit-sequence accumulator for `pyParseInt`. -/
def parseDigitsAux : List Char → Nat → Option Nat
  | [], acc => some acc
  | c :: rest, acc =>
      if c.isDigit then parseDigitsAux rest (acc * 10 + (c.toNat - 48)) else none

/-- Non-empty digit sequence. -/
def parseDigits : List Char → Option Nat
  | [] => none
  | l => parseDigitsAux l 0

/-- Python `int(s)` on a string: an optional sign followed by digits;
anything else raises `ValueError` (whitespace trimming and underscore
separators are not modelled — no embedded input uses them). -/
def pyParseInt (s : String) : Option Int :=
  match s.data with
  | '-' :: rest => (parseDigits rest).map (fun n => -(n : Int))
  | '+' :: rest => (parseDigits rest).map (fun n => (n : Int))
  | l => (parseDigits l).map (fun n => (n : Int))

/-- Calling a Python class on a value, `T(value)`; `.error ()` is the call
raising (`ValueError` for `int` on a non-numeric string or an `Enum` class
on a non-member string). -/
def pyCall : PyType → Value → Except Unit Value
  | .tInt, .vInt n => .ok (.vInt n)
  | .tInt, .vStr s => match pyParseInt s with
      | some n => .ok (.vInt n)
      | none => .error ()
  | .tInt, .vEnum _ _ => .error ()
  | .tStr, v => .ok (.vStr (pyStr v))
  | .tEnum ms, .vStr s => if s ∈ ms then .ok (.vEnum ms s) else .error ()
  | .tEnum ms, .vEnum ms2 n => if ms = ms2 then .ok (.vEnum ms2 n) else .error ()
  | .tEnum _, .vInt _ => .error ()

/-- A query: the mutable string-keyed mapping validated by a
`QueryValidator` (Python `MutableMapping[str, Any]`). -/
def Query : Type := List (String × Value)

instance : DecidableEq Query := by
  unfold Query
  infer_instance

/-! ## queries.py: error taxonomy -/

/-- The exceptions the embedded validation code can raise.
`missingKey`, `wrongValueType` and `boundKeyExistence` are the
`QueryValidationError` subclasses; `pyValueError` is a plain Python
exception escaping from inside `evaluate` (in particular the `ValueError`
raised by `type(value)` in `_TypeNode.evaluate`, where the loop variable
`type` shadows the builtin and the message formatting calls e.g.
`int("x")`). -/
inductive QueryError where
  | missingKey (key : String)
  | wrongValueType (key : String) (expected : List PyType) (badtype : Value)
  | boundKeyExistence
  | pyValueError
deriving DecidableEq, Repr

/-- `QueryValidatorStructureError`: programmer misuse of the fluent
builder. -/
inductive StructError where
  | structureError
deriving DecidableEq, Repr

/-! ## queries.py: validation tree -/

/-- The value held by a `_DefaultValueNode`: a literal, or a supplier
function of the query (the Python `supplies_type` case; the context
argument is not modelled since no embedded supplier uses it). -/
inductive DefaultVal where
  | lit (v : Value)
  | supplier (f : Query → Value)

/-- `_DefaultValueNode`. -/
structure _DefaultValueNode where
  key : String
  value : DefaultVal

/-- `copy.deepcopy` of an (immutable) query value, value-semantics view. -/
def pydeepcopy (v : Value) : Value := v

/-- `_DefaultValueNode.evaluate`: writes the (deep-copied) literal or the
supplier result into the query under the node's key; always succeeds. -/
def _DefaultValueNode.evaluate (n : _DefaultValueNode) (q : Query) : Query × Bool :=
  match n.value with
  | .supplier f => (ainsert q n.key (f q), true)
  | .lit v => (ainsert q n.key (pydeepcopy v), true)

/-- `_TypeNode`. -/
structure _TypeNode where
  key : String
  types : List PyType
  child : Option _DefaultValueNode

/-- The `for type in self.types` loop body of `_TypeNode.evaluate`,
carrying the (possibly enum-coerced) current value. (The `__origin__`
unwrapping line is a no-op here: no modelled class is a `typing`
generic.) When the loop is
exhausted, the code raises `WrongValueTypeError` with
`badtype=type(value)` — but `type` is the loop variable (the *last*
element of `self.types`), so this calls that class on the value; if that
call itself raises (e.g. `int("x")`), the `ValueError` propagates instead
of the `WrongValueTypeError`. -/
def _TypeNode.evalLoop (key : String) (allTypes : List PyType) (q : Query) :
    List PyType → Value → Query × Except QueryError Bool
  | [], value =>
      match allTypes.getLast? with
      | some t =>
          match pyCall t value with
          | .ok badtype => (q, .error (.wrongValueType key allTypes badtype))
          | .error _ => (q, .error .pyValueError)
      | none => (q, .error .pyValueError)
  | t :: rest, value =>
      match (match t, value with
             | .tEnum _, .vStr _ => pyCall t value
             | _, _ => .ok value : Except Unit Value) with
      | .error _ => (q, .error .pyValueError)
      | .ok value2 =>
          if isinstance value2 t then (ainsert q key value2, .ok true)
          else _TypeNode.evalLoop key allTypes q rest value2

/-- `_TypeNode.evaluate`: if the key is present, run the type loop; if the
lookup raises `KeyError`, evaluate the default child (when present) and
return `True`. -/
def _TypeNode.evaluate (n : _TypeNode) (q : Query) : Query × Except QueryError Bool :=
  match alookup q n.key with
  | some value => _TypeNode.evalLoop n.key n.types q n.types value
  | none =>
      match n.child with
      | some c => ((c.evaluate q).1, .ok true)
      | none => (q, .ok true)

/-- `_KeyNode`. -/
structure _KeyNode where
  key : String
  required : Bool
  child : Option _TypeNode

/-- `_KeyNode.evaluate`: a required absent key raises `MissingKeyError`;
otherwise the child (if any) is evaluated and `has_key` is reported. -/
def _KeyNode.evaluate (n : _KeyNode) (q : Query) : Query × Except QueryError Bool :=
  let hasKey := (alookup q n.key).isSome
  if n.required && !hasKey then (q, .error (.missingKey n.key))
  else
    match n.child with
    | some t =>
        match t.evaluate q with
        | (q2, .ok _) => (q2, .ok hasKey)
        | (q2, .error e) => (q2, .error e)
    | none => (q, .ok hasKey)

/-- The validation tree below the root: `_KeyNode`, `_AndNode`,
`_OrNode`. -/
inductive VNode where
  | keyNode (n : _KeyNode)
  | andNode (children : List VNode)
  | orNode (children : List VNode)

/-- The `falsifiable` property: only an optional `_KeyNode` or an
`_OrNode` may legitimately report `False` instead of raising. -/
def VNode.falsifiable : VNode → Bool
  | .keyNode n => !n.required
  | .andNode _ => false
  | .orNode _ => true

/-- Which exceptions the `_OrNode.evaluate` `except` clause catches
(`MissingKeyError`, `BoundKeyExistenceError`). -/
def orCatches : QueryError → Bool
  | .missingKey _ => true
  | .boundKeyExistence => true
  | _ => false

mutual

/-- Evaluation of a validation node against a query; returns the
(possibly mutated, in-place in Python) query together with the outcome. -/
def VNode.evaluate : VNode → Query → Query × Except QueryError Bool
  | .keyNode n, q => n.evaluate q
  | .andNode cs, q =>
      match evalAndChildren cs q true true with
      | (q2, .error e) => (q2, .error e)
      | (q2, .ok (allTrue, allPossibleFalse)) =>
          if allPossibleFalse || allTrue then (q2, .ok true)
          else (q2, .error .boundKeyExistence)
  | .orNode cs, q =>
      match evalOrChildren cs q [] 0 false with
      | (q2, .error e) => (q2, .error e)
      | (q2, .ok (errors, failureCount, result)) =>
          if failureCount = cs.length && !errors.isEmpty then
            (q2, .error (errors.headD .boundKeyExistence))
          else (q2, .ok result)

/-- The `for child in self.children` loop of `_AndNode.evaluate`,
accumulating `all_true` and `all_possible_false`. -/
def evalAndChildren : List VNode → Query → Bool → Bool →
    Query × Except QueryError (Bool × Bool)
  | [], q, allTrue, allPossibleFalse => (q, .ok (allTrue, allPossibleFalse))
  | c :: rest, q, allTrue, allPossibleFalse =>
      match VNode.evaluate c q with
      | (q2, .error e) => (q2, .error e)
      | (q2, .ok isT) =>
          evalAndChildren rest q2 (allTrue && isT)
            (if c.falsifiable then allPossibleFalse && !isT else allPossibleFalse)

/-- The `for child in self.children` loop of `_OrNode.evaluate`,
accumulating caught errors, the failure count and the running result. -/
def evalOrChildren : List VNode → Query → List QueryError → Nat → Bool →
    Query × Except QueryError (List QueryError × Nat × Bool)
  | [], q, errors, failureCount, result => (q, .ok (errors, failureCount, result))
  | c :: rest, q, errors, failureCount, result =>
      match VNode.evaluate c q with
      | (q2, .ok isT) =>
          evalOrChildren rest q2 errors
            (if isT then failureCount else failureCount + 1) (isT || result)
      | (q2, .error e) =>
          if orCatches e then
            evalOrChildren rest q2 (errors ++ [e]) (failureCount + 1) result
          else (q2, .error e)

end

/-- The `_RootNode.evaluate` loop: evaluate children in order, propagating
errors, threading in-place query mutations. -/
def evalRootChildren : List VNode → Query → Query × Except QueryError Unit
  | [], q => (q, .ok ())
  | c :: rest, q =>
      match c.evaluate q with
      | (q2, .ok _) => evalRootChildren rest q2
      | (q2, .error e) => (q2, .error e)

/-! ## queries.py: the fluent builder -/

/-- `QueryValidator` builder state. `rootChildren` are the root's
children; the currently selected key node (`self._current`), when any, is
always the last child along the chain of last children (its enclosing
groups are created by moving it to the end of its parent's child list), so
it is identified by its depth `currentDepth` along that spine, and
`self._parent` is the node just above it on the spine (the root for depth
0). -/
structure QueryValidator where
  rootChildren : List VNode
  currentDepth : Option Nat

/-- `QueryValidator.__init__`. -/
def QueryValidator.empty : QueryValidator := ⟨[], none⟩

/-- Replace the last element of a list, if any. -/
def modifyLast {α : Type} (f : α → α) : List α → List α
  | [] => []
  | [x] => [f x]
  | x :: rest => x :: modifyLast f rest

/-- The node at depth `d` along the last-child spine. -/
def spineGet : List VNode → Nat → Option VNode
  | l, 0 => l.getLast?
  | l, d + 1 =>
      match l.getLast? with
      | some (.andNode cs) => spineGet cs d
      | some (.orNode cs) => spineGet cs d
      | _ => none

/-- Rewrite the node at depth `d` along the last-child spine. -/
def spineModify : List VNode → Nat → (VNode → VNode) → List VNode
  | l, 0, f => modifyLast f l
  | l, d + 1, f =>
      modifyLast (fun g =>
        match g with
        | .andNode cs => .andNode (spineModify cs d f)
        | .orNode cs => .orNode (spineModify cs d f)
        | x => x) l

/-- `QueryValidator.has`: start a required top-level key declaration. -/
def QueryValidator.has (v : QueryValidator) (key : String) :
    Except StructError QueryValidator :=
  if v.currentDepth.isSome then .error .structureError
  else .ok ⟨v.rootChildren ++ [.keyNode ⟨key, true, none⟩], some 0⟩

/-- `QueryValidator.can_have`: start an optional top-level key
declaration. -/
def QueryValidator.can_have (v : QueryValidator) (key : String) :
    Except StructError QueryValidator :=
  if v.currentDepth.isSome then .error .structureError
  else .ok ⟨v.rootChildren ++ [.keyNode ⟨key, false, none⟩], some 0⟩

/-- `QueryValidator.as_`: attach a type constraint (a singleton type set)
to the currently selected key. -/
def QueryValidator.as_ (v : QueryValidator) (t : PyType) :
    Except StructError QueryValidator :=
  match v.currentDepth with
  | none => .error .structureError
  | some d =>
      match spineGet v.rootChildren d with
      | some (.keyNode n) =>
          if n.child.isSome then .error .structureError
          else .ok ⟨spineModify v.rootChildren d
                      (fun _ => .keyNode ⟨n.key, n.required, some ⟨n.key, [t], none⟩⟩),
                    some d⟩
      | _ => .error .structureError

/-- Whether `self._parent` is an `_AndNode` (for `and_`): the parent is
the spine node just above the current key node. -/
def QueryValidator.parentIsAnd (v : QueryValidator) (d : Nat) : Bool :=
  match d with
  | 0 => false
  | d0 + 1 =>
      match spineGet v.rootChildren d0 with
      | some (.andNode _) => true
      | _ => false

/-- Whether `self._parent` is an `_OrNode` (for `or_`). -/
def QueryValidator.parentIsOr (v : QueryValidator) (d : Nat) : Bool :=
  match d with
  | 0 => false
  | d0 + 1 =>
      match spineGet v.rootChildren d0 with
      | some (.orNode _) => true
      | _ => false

/-- `QueryValidator.and_`: extend the current `_AndNode` group with a new
key of the same required-ness, promoting the bare current key into a group
on first use (the source removes the current node from its parent's child
list — it is the last — and appends the new group in its place). -/
def QueryValidator.and_ (v : QueryValidator) (key : String) :
    Except StructError QueryValidator :=
  match v.currentDepth with
  | none => .error .structureError
  | some d =>
      match spineGet v.rootChildren d with
      | some (.keyNode cur) =>
          if v.parentIsAnd d then
            .ok ⟨spineModify v.rootChildren (d - 1)
                   (fun g => match g with
                     | .andNode cs => .andNode (cs ++ [.keyNode ⟨key, cur.required, none⟩])
                     | x => x),
                 some d⟩
          else
            .ok ⟨spineModify v.rootChildren d
                   (fun _ => .andNode [.keyNode cur, .keyNode ⟨key, cur.required, none⟩]),
                 some (d + 1)⟩
      | _ => .error .structureError

/-- `QueryValidator.or_`: as `and_`, for `_OrNode` groups. -/
def QueryValidator.or_ (v : QueryValidator) (key : String) :
    Except StructError QueryValidator :=
  match v.currentDepth with
  | none => .error .structureError
  | some d =>
      match spineGet v.rootChildren d with
      | some (.keyNode cur) =>
          if v.parentIsOr d then
            .ok ⟨spineModify v.rootChildren (d - 1)
                   (fun g => match g with
                     | .orNode cs => .orNode (cs ++ [.keyNode ⟨key, cur.required, none⟩])
                     | x => x),
                 some d⟩
          else
            .ok ⟨spineModify v.rootChildren d
                   (fun _ => .orNode [.keyNode cur, .keyNode ⟨key, cur.required, none⟩]),
                 some (d + 1)⟩
      | _ => .error .structureError

/-- `QueryValidator.also`: close the current declaration. -/
def QueryValidator.also (v : QueryValidator) : Except StructError QueryValidator :=
  if v.currentDepth.isNone then .error .structureError
  else .ok ⟨v.rootChildren, none⟩

/-- `QueryValidator.with_default`: only legal on an optional key with no
type constraint; infers the expected type from the literal (or the
explicit `supplies_type` hint), attaches the type constraint via `as_`,
and hangs the default node below it. A literal supplier function with no
type hint (Python would infer the function's own class) is out of the
modelled universe and reported as a structure error. -/
def QueryValidator.with_default (v : QueryValidator) (value : DefaultVal)
    (suppliesType : Option PyType) : Except StructError QueryValidator :=
  match v.currentDepth with
  | none => .error .structureError
  | some d =>
      match spineGet v.rootChildren d with
      | some (.keyNode cur) =>
          if cur.child.isSome then .error .structureError
          else if cur.required then .error .structureError
          else
            match (match suppliesType with
                   | some t => some t
                   | none => match value with
                       | .lit litv => some (typeOf litv)
                       | .supplier _ => none) with
            | none => .error .structureError
            | some expected =>
                match v.as_ expected with
                | .error e => .error e
                | .ok v2 =>
                    .ok ⟨spineModify v2.rootChildren d
                           (fun nd => match nd with
                             | .keyNode n =>
                                 .keyNode ⟨n.key, n.required,
                                   (n.child.map (fun tn =>
                                     (⟨tn.key, tn.types, some ⟨cur.key, value⟩⟩ : _TypeNode)))⟩
                             | x => x),
                         v2.currentDepth⟩
      | _ => .error .structureError

/-- `QueryValidator.__call__`: evaluate the root against a query,
returning the mutated query and `True` (or the raised error). -/
def QueryValidator.run (v : QueryValidator) (q : Query) :
    Query × Except QueryError Bool :=
  match evalRootChildren v.rootChildren q with
  | (q2, .ok _) => (q2, .ok true)
  | (q2, .error e) => (q2, .error e)

/-! ## pipelines.py: elements, transformers and the type graph

Type identifiers are opaque tokens (`TypeId := Nat`). A pipeline element
models one Python object that may be a `DataSource`, a `DataSink` or both;
`id` is its Python object identity. `provides`/`accepts` are `none` for
the `TYPE_WILDCARD` declaration and `some types` otherwise; the membership
test `TYPE_WILDCARD in source.provides or type in source.provides` is
modelled as "wildcard matches every type". `fetch` is the element's
`DataSource.get` behaviour: `.error ()` is it raising `NotFoundError`
(the only origin failure the orchestrator handles). -/

abbrev TypeId : Type := Nat

/-- A `DataTransformer`: its declared conversions, its `cost`, its
`transform` behaviour, and a `tag` standing for its object identity. -/
structure DataTransformer where
  tag : Nat
  transforms : List (TypeId × List TypeId)
  cost : Nat
  transform : TypeId → Value → Value

/-- A pipeline element (a `DataSource`, a `DataSink`, or both). -/
structure PElement where
  id : Nat
  isSource : Bool
  isSink : Bool
  provides : Option (List TypeId)
  accepts : Option (List TypeId)
  fetch : TypeId → Query → Except Unit Value

/-- Edge attributes of the type graph: the `cost` attribute and the
`transformer` attribute (networkx `add_edge(u, v, cost=..-, transformer=..)`). -/
structure EdgeData where
  cost : Nat
  transformer : DataTransformer

/-- The networkx `DiGraph` built by `_build_type_graph`: an ordered node
set, per-node `sources`/`sinks` attributes (element ids), and one
attribute record per directed edge. -/
structure TypeGraph where
  nodeIds : List TypeId
  sourcesAttr : List (TypeId × List Nat)
  sinksAttr : List (TypeId × List Nat)
  edges : List ((TypeId × TypeId) × EdgeData)

/-- `graph.add_node(n)`: adds the node if absent, keeps attributes. -/
def TypeGraph.addNode (g : TypeGraph) (n : TypeId) : TypeGraph :=
  if n ∈ g.nodeIds then g else { g with nodeIds := g.nodeIds ++ [n] }

/-- `graph.add_edge(u, v, cost=c, transformer=t)`: adds missing endpoint
nodes and replaces the edge's attribute record. -/
def TypeGraph.addEdge (g : TypeGraph) (u v : TypeId) (d : EdgeData) : TypeGraph :=
  let g := (g.addNode u).addNode v
  { g with edges := ainsert g.edges (u, v) d }

/-- The empty `DiGraph()`. -/
def TypeGraph.empty : TypeGraph := ⟨[], [], [], []⟩

/-- The per-transformer step of the third loop of `_build_type_graph`:
for each declared `(from_type, to_type)` pair, ensure both nodes exist,
keep the cheaper of the stored and the new transformer — ties keep the
stored one — but (as the source does) store the *new* transformer's cost
as the edge's `cost` attribute. -/
def addTransformerEdges (g : TypeGraph) (tr : DataTransformer) : TypeGraph :=
  tr.transforms.foldl (fun g ft =>
    ft.2.foldl (fun g toType =>
      let g := (g.addNode ft.1).addNode toType
      let cheapest :=
        match alookup g.edges (ft.1, toType) with
        | some ed => if tr.cost < ed.transformer.cost then tr else ed.transformer
        | none => tr
      g.addEdge ft.1 toType ⟨tr.cost, cheapest⟩) g) g

/-- The per-source step of the first loop of `_build_type_graph`. The
source reads `graph[provided_type][_SOURCES]`, which indexes the node's
*adjacency* mapping (networkx `G[n]`), so the string key `"sources"` is
never found, the `except KeyError` branch always runs, and the
accumulator starts empty: the node's `sources` attribute ends up holding
just this source. Wildcard sources are skipped. -/
def addSourceNodes (g : TypeGraph) (s : PElement) : TypeGraph :=
  match s.provides with
  | none => g
  | some types =>
      types.foldl (fun g t =>
        let providedTypeSources : List Nat := [] ++ [s.id]
        { g.addNode t with sourcesAttr := ainsert g.sourcesAttr t providedTypeSources }) g

/-- The per-sink step of the second loop of `_build_type_graph`,
symmetric to `addSourceNodes`. -/
def addSinkNodes (g : TypeGraph) (s : PElement) : TypeGraph :=
  match s.accepts with
  | none => g
  | some types =>
      types.foldl (fun g t =>
        let acceptedTypeSinks : List Nat := [] ++ [s.id]
        { g.addNode t with sinksAttr := ainsert g.sinksAttr t acceptedTypeSinks }) g

/-- `_build_type_graph(sources, sinks, transformers)`. -/
def _build_type_graph (sources sinks : List PElement)
    (transformers : List DataTransformer) : TypeGraph :=
  let g := sources.foldl addSourceNodes TypeGraph.empty
  let g := sinks.foldl addSinkNodes g
  transformers.foldl addTransformerEdges g

/-! ## pipelines.py: shortest-path search (networkx `dijkstra_path`) -/

/-- The outgoing edges of a node with their `cost` attributes. -/
def TypeGraph.successors (g : TypeGraph) (u : TypeId) : List (TypeId × Nat) :=
  g.edges.filterMap (fun e => if e.1.1 = u then some (e.1.2, e.2.cost) else none)

/-- The frontier entry with the smallest tentative distance (the heap pop
of networkx `_dijkstra`). -/
def frontierMin : List (Nat × TypeId × List TypeId) → Option (Nat × TypeId × List TypeId)
  | [] => none
  | x :: xs => some (xs.foldl (fun b y => if y.1 < b.1 then y else b) x)

/-- Fuel-indexed Dijkstra main loop over the `cost`-weighted edges:
frontier entries are `(dist, node, path-prefix)`. -/
def dijkstraLoop (g : TypeGraph) (target : TypeId) :
    Nat → List (Nat × TypeId × List TypeId) → List TypeId → Option (List TypeId)
  | 0, _, _ => none
  | fuel + 1, frontier, visited =>
      match frontierMin frontier with
      | none => none
      | some (d, u, path) =>
          let rest := frontier.filter (fun e => e.2.1 ≠ u)
          if u ∈ visited then dijkstraLoop g target fuel rest visited
          else if u = target then some (path ++ [u])
          else
            let fresh := (g.successors u).map (fun vc => (d + vc.2, vc.1, path ++ [u]))
            dijkstraLoop g target fuel (rest ++ fresh) (u :: visited)

/-- Errors of `dijkstra_path` that `DataPipeline._transform` catches:
`KeyError` (a source node absent from the graph) and `NetworkXNoPath`. -/
inductive PathError where
  | keyError
  | noPath
deriving DecidableEq, Repr

/-- networkx `dijkstra_path(graph, source, target, weight="cost")`.
When `target == source` the search returns `[target]` at distance 0
before any membership check (`multi_source_dijkstra`'s
`if target in sources` early return); a missing source node raises
`KeyError`; an exhausted search raises `NetworkXNoPath`. -/
def dijkstra_path (g : TypeGraph) (source target : TypeId) :
    Except PathError (List TypeId) :=
  if source = target then .ok [target]
  else if source ∉ g.nodeIds then .error .keyError
  else
    match dijkstraLoop g target (g.edges.length + g.nodeIds.length + 2)
        [(0, source, [])] [] with
    | some p => .ok p
    | none => .error .noPath

/-! ## pipelines.py: transform resolution -/

/-- `_pairwise(iterable)`. -/
def _pairwise {α : Type} (l : List α) : List (α × α) := l.zip l.tail

/-- `_transform(transformer_chain, data)`: apply each `(transformer,
target_type)` step in order (module-level helper; the composed callable
returned by `DataPipeline._transform` is represented by its chain, the
empty chain being `_identity`). -/
def applyChain (chain : List (DataTransformer × TypeId)) (data : Value) : Value :=
  chain.foldl (fun data step => step.1.transform step.2 data) data

/-- Errors raised out of `DataPipeline._transform`: `NoConversionError`,
or an internal uncaught `KeyError` (an edge of the returned path missing
from the adjacency — unreachable for paths produced by the search, kept
so that the caller-side `except NoConversionError` clauses stay
faithful). -/
inductive TransformError where
  | noConversion
  | keyError
deriving DecidableEq, Repr

/-- The chain-building loop of `DataPipeline._transform`: walk the path
pairwise, collect each edge's `transformer` attribute and its target, and
sum the *transformers'* costs (not the edge `cost` attributes). -/
def buildChain (g : TypeGraph) :
    List (TypeId × TypeId) → List (DataTransformer × TypeId) → Nat →
    Except TransformError (List (DataTransformer × TypeId) × Nat)
  | [], chain, cost => .ok (chain, cost)
  | st :: rest, chain, cost =>
      match alookup g.edges st with
      | some ed => buildChain g rest (chain ++ [(ed.transformer, st.2)]) (cost + ed.transformer.cost)
      | none => .error .keyError

/-- `DataPipeline._transform(source_type, target_type)`: shortest-path
search, then chain construction; an empty chain is the identity at cost
0. -/
def DataPipeline._transform (g : TypeGraph) (sourceType targetType : TypeId) :
    Except TransformError (List (DataTransformer × TypeId) × Nat) :=
  match dijkstra_path g sourceType targetType with
  | .error _ => .error .noConversion
  | .ok path =>
      match buildChain g (_pairwise path) [] 0 with
      | .error e => .error e
      | .ok (chain, cost) => if chain.isEmpty then .ok ([], 0) else .ok (chain, cost)

/-- `_MAX_TRANSFORM_COST`. -/
def _MAX_TRANSFORM_COST : Nat := 10000000

/-- The candidate loop of `_best_transform_from`: try `_transform`
against every candidate target, keep the first strictly cheaper success;
`NoConversionError`s from candidates are swallowed, any other error
propagates. -/
def bestFromLoop (g : TypeGraph) (sourceType : TypeId) :
    List TypeId → Option (List (DataTransformer × TypeId) × TypeId) × Nat →
    Except TransformError (Option (List (DataTransformer × TypeId) × TypeId) × Nat)
  | [], acc => .ok acc
  | targetType :: rest, acc =>
      match DataPipeline._transform g sourceType targetType with
      | .ok (chain, cost) =>
          bestFromLoop g sourceType rest
            (if cost < acc.2 then (some (chain, targetType), cost) else acc)
      | .error .noConversion => bestFromLoop g sourceType rest acc
      | .error .keyError => .error .keyError

/-- `DataPipeline._best_transform_from(source_type, target_types)`: the
candidate loop starting from `best = None`, `best_cost =
_MAX_TRANSFORM_COST`; no success at all raises `NoConversionError`. -/
def DataPipeline._best_transform_from (g : TypeGraph) (sourceType : TypeId)
    (targetTypes : List TypeId) :
    Except TransformError (List (DataTransformer × TypeId) × TypeId × Nat) :=
  match bestFromLoop g sourceType targetTypes (none, _MAX_TRANSFORM_COST) with
  | .error e => .error e
  | .ok (none, _) => .error .noConversion
  | .ok (some (chain, toType), cost) => .ok (chain, toType, cost)

/-- The candidate loop of `_best_transform_to`, symmetric to
`bestFromLoop` over candidate source types. -/
def bestToLoop (g : TypeGraph) (targetType : TypeId) :
    List TypeId → Option (List (DataTransformer × TypeId) × TypeId) × Nat →
    Except TransformError (Option (List (DataTransformer × TypeId) × TypeId) × Nat)
  | [], acc => .ok acc
  | sourceType :: rest, acc =>
      match DataPipeline._transform g sourceType targetType with
      | .ok (chain, cost) =>
          bestToLoop g targetType rest
            (if cost < acc.2 then (some (chain, sourceType), cost) else acc)
      | .error .noConversion => bestToLoop g targetType rest acc
      | .error .keyError => .error .keyError

/-- `DataPipeline._best_transform_to(target_type, source_types)`. -/
def DataPipeline._best_transform_to (g : TypeGraph) (targetType : TypeId)
    (sourceTypes : List TypeId) :
    Except TransformError (List (DataTransformer × TypeId) × TypeId × Nat) :=
  match bestToLoop g targetType sourceTypes (none, _MAX_TRANSFORM_COST) with
  | .error e => .error e
  | .ok (none, _) => .error .noConversion
  | .ok (some (chain, fromType), cost) => .ok (chain, fromType, cost)

/-! ## pipelines.py: sink and source handlers

Writes to sinks are observable effects; each `DataSink.put` /
`DataSink.put_many` call is recorded as an event carrying the sink's
identity, the store type passed, and the (transformed) payload. -/

/-- `_SinkHandler`: a sink, the type it will be handed, and the composed
transform into that type. -/
structure _SinkHandler where
  sink : PElement
  store_type : TypeId
  transform : Value → Value

/-- One `DataSink.put` call. -/
structure WriteEvent where
  sinkId : Nat
  storeType : TypeId
  value : Value

/-- One `DataSink.put_many` call (the lazily transformed sequence,
materialized). -/
structure WriteManyEvent where
  sinkId : Nat
  storeType : TypeId
  values : List Value

/-- `_SinkHandler.put`: convert the item, write it to the sink. -/
def _SinkHandler.put (h : _SinkHandler) (item : Value) : WriteEvent :=
  ⟨h.sink.id, h.store_type, h.transform item⟩

/-- `_SinkHandler.put_many`: convert each item, bulk-write to the sink. -/
def _SinkHandler.put_many (h : _SinkHandler) (items : List Value) : WriteManyEvent :=
  ⟨h.sink.id, h.store_type, items.map h.transform⟩

/-- `_SourceHandler`: a source, its resident type, the transform to the
requested type, and the sink handlers fed before/after conversion. -/
structure _SourceHandler where
  source : PElement
  source_type : TypeId
  transform : Value → Value
  before_transform : List _SinkHandler
  after_transform : List _SinkHandler

/-- `_SourceHandler.__init__`: splits the `sinks` mapping into the
before-transform (`do_transform = False`) and after-transform sets. -/
def _SourceHandler.make (source : PElement) (sourceType : TypeId)
    (transform : Value → Value) (sinks : List (_SinkHandler × Bool)) : _SourceHandler :=
  ⟨source, sourceType, transform,
   (sinks.filter (fun p => !p.2)).map Prod.fst,
   (sinks.filter (fun p => p.2)).map Prod.fst⟩

/-- `copy.deepcopy(query)` before handing the query to the origin;
value-semantics identity here. -/
def pydeepcopyQuery (q : Query) : Query := q

/-- `_SourceHandler.get`: fetch from the origin (a deep copy of the query
is passed); on `NotFoundError` nothing else happens; otherwise fan the
raw result out to the before-transform sinks, convert, fan the converted
result out to the after-transform sinks, and return it. -/
def _SourceHandler.get (h : _SourceHandler) (q : Query) :
    Except Unit (Value × List WriteEvent) :=
  match h.source.fetch h.source_type (pydeepcopyQuery q) with
  | .error _ => .error ()
  | .ok result =>
      let before := h.before_transform.map (fun s => s.put result)
      let result2 := h.transform result
      let after := h.after_transform.map (fun s => s.put result2)
      .ok (result2, before ++ after)

/-! ## pipelines.py: handler creation -/

/-- `TYPE_WILDCARD in sink.accepts or type in sink.accepts`: a wildcard
sink accepts every type directly. -/
def acceptsDirect (sink : PElement) (t : TypeId) : Bool :=
  match sink.accepts with
  | none => true
  | some l => t ∈ l

/-- The accepted-type collection iterated by the conversion searches
(empty for a wildcard sink, which never reaches them through
`_create_sink_handlers`). -/
def acceptsList (sink : PElement) : List TypeId := sink.accepts.getD []

/-- `TYPE_WILDCARD in source.provides or type in source.provides`. -/
def providesDirect (source : PElement) (t : TypeId) : Bool :=
  match source.provides with
  | none => true
  | some l => t ∈ l

/-- The provided-type collection iterated by `_best_transform_to`. -/
def providesList (source : PElement) : List TypeId := source.provides.getD []

/-- The sink loop of `_create_sink_handlers`: direct (or wildcard)
acceptance yields an identity handler; otherwise the cheapest conversion
from `t` into an accepted type; a sink reachable by neither is skipped. -/
def createSinkHandlersLoop (g : TypeGraph) (t : TypeId) :
    List PElement → List _SinkHandler → Except TransformError (List _SinkHandler)
  | [], handlers => .ok handlers
  | sink :: rest, handlers =>
      if acceptsDirect sink t then
        createSinkHandlersLoop g t rest (handlers ++ [⟨sink, t, applyChain []⟩])
      else
        match DataPipeline._best_transform_from g t (acceptsList sink) with
        | .ok (chain, storeType, _cost) =>
            createSinkHandlersLoop g t rest (handlers ++ [⟨sink, storeType, applyChain chain⟩])
        | .error .noConversion => createSinkHandlersLoop g t rest handlers
        | .error .keyError => .error .keyError

/-- `DataPipeline._create_sink_handlers(type, targets)`. -/
def DataPipeline._create_sink_handlers (g : TypeGraph) (t : TypeId)
    (targets : List PElement) : Except TransformError (List _SinkHandler) :=
  createSinkHandlersLoop g t targets []

/-- The sink loop of `_create_sink_handlers_simultaneously`: each sink is
resolved against both the pre-conversion type `before` and the
post-conversion type `after`; the cheaper wins (a cost tie goes to
`after`), a sink reachable from neither is skipped. (The source function
also receives the origin transform as an argument but never uses it.) -/
def createSinkHandlersSimulLoop (g : TypeGraph) (before after : TypeId) :
    List PElement → List _SinkHandler → List _SinkHandler →
    Except TransformError (List _SinkHandler × List _SinkHandler)
  | [], pre, post => .ok (pre, post)
  | sink :: rest, pre, post =>
      match DataPipeline._best_transform_from g before (acceptsList sink) with
      | .error .keyError => .error .keyError
      | befRes =>
          match DataPipeline._best_transform_from g after (acceptsList sink) with
          | .error .keyError => .error .keyError
          | aftRes =>
              match befRes, aftRes with
              | .ok (bchain, bto, bcost), .ok (achain, ato, acost) =>
                  if bcost < acost then
                    createSinkHandlersSimulLoop g before after rest
                      (pre ++ [⟨sink, bto, applyChain bchain⟩]) post
                  else
                    createSinkHandlersSimulLoop g before after rest pre
                      (post ++ [⟨sink, ato, applyChain achain⟩])
              | .ok (bchain, bto, _), _ =>
                  createSinkHandlersSimulLoop g before after rest
                    (pre ++ [⟨sink, bto, applyChain bchain⟩]) post
              | _, .ok (achain, ato, _) =>
                  createSinkHandlersSimulLoop g before after rest pre
                    (post ++ [⟨sink, ato, applyChain achain⟩])
              | _, _ => createSinkHandlersSimulLoop g before after rest pre post

/-- `DataPipeline._create_sink_handlers_simultaneously(before, transform,
after, targets)`. -/
def DataPipeline._create_sink_handlers_simultaneously (g : TypeGraph)
    (before after : TypeId) (targets : List PElement) :
    Except TransformError (List _SinkHandler × List _SinkHandler) :=
  createSinkHandlersSimulLoop g before after targets [] []

/-- The source loop of `_create_source_handlers`: a source providing the
type directly (or wildcard) gets an identity handler whose sinks all fan
out before conversion; otherwise the cheapest provided-to-requested
conversion determines the resident type and both fan-out sets; a source
that cannot reach the requested type is skipped. -/
def createSourceHandlersLoop (g : TypeGraph) (t : TypeId) :
    List (PElement × List PElement) → List _SourceHandler →
    Except TransformError (List _SourceHandler)
  | [], handlers => .ok handlers
  | (source, targets) :: rest, handlers =>
      if providesDirect source t then
        match DataPipeline._create_sink_handlers g t targets with
        | .error e => .error e
        | .ok sinkHandlers =>
            createSourceHandlersLoop g t rest
              (handlers ++ [_SourceHandler.make source t (applyChain [])
                (sinkHandlers.map (fun sh => (sh, false)))])
      else
        match DataPipeline._best_transform_to g t (providesList source) with
        | .ok (chain, sourceType, _cost) =>
            match DataPipeline._create_sink_handlers_simultaneously g sourceType t targets with
            | .error e => .error e
            | .ok (pre, post) =>
                createSourceHandlersLoop g t rest
                  (handlers ++ [_SourceHandler.make source sourceType (applyChain chain)
                    (pre.map (fun sh => (sh, false)) ++ post.map (fun sh => (sh, true)))])
        | .error .noConversion => createSourceHandlersLoop g t rest handlers
        | .error .keyError => .error .keyError

/-! ## pipelines.py: the DataPipeline -/

/-- The immutable part of a `DataPipeline` after `__init__`: the type
graph, `self._sources` (each source paired with its snapshotted eligible
sink set) and `self._sinks`. -/
structure DataPipeline where
  type_graph : TypeGraph
  sources : List (PElement × List PElement)
  sinks : List PElement

/-- Python `set.add` over elements (identity semantics via `id`). -/
def insertElem (l : List PElement) (e : PElement) : List PElement :=
  if l.any (fun x => x.id = e.id) then l else l ++ [e]

/-- Accumulator of the `__init__` element walk. -/
structure InitAcc where
  srcs : List PElement
  snks : List PElement
  targets : List (PElement × List PElement)

/-- One step of the `__init__` element walk: a source is recorded together
with a snapshot of the sinks seen so far (`set(sinks)`); a sink is then
added to the running sink set. A dual-role element is recorded as a
source before being added as a sink, so its own snapshot excludes
itself. -/
def initStep (acc : InitAcc) (e : PElement) : InitAcc :=
  let acc :=
    if e.isSource then
      { acc with srcs := insertElem acc.srcs e, targets := acc.targets ++ [(e, acc.snks)] }
    else acc
  if e.isSink then { acc with snks := insertElem acc.snks e } else acc

/-- `DataPipeline.__init__(elements, transformers)`: `none` is the
`ValueError` on an empty element sequence. -/
def DataPipeline.init (elements : List PElement)
    (transformers : List DataTransformer) : Option DataPipeline :=
  if elements.isEmpty then none
  else
    let acc := elements.foldl initStep ⟨[], [], []⟩
    some ⟨_build_type_graph acc.srcs acc.snks transformers, acc.targets, acc.snks⟩

/-- `DataPipeline._create_source_handlers(type)`. -/
def DataPipeline._create_source_handlers (p : DataPipeline) (t : TypeId) :
    Except TransformError (List _SourceHandler) :=
  createSourceHandlersLoop p.type_graph t p.sources []

/-- `DataPipeline._get_handlers(type)`: an empty handler list raises
`NoConversionError`. -/
def DataPipeline._get_handlers (p : DataPipeline) (t : TypeId) :
    Except TransformError (List _SourceHandler) :=
  match DataPipeline._create_source_handlers p t with
  | .error e => .error e
  | .ok handlers => if handlers.isEmpty then .error .noConversion else .ok handlers

/-- `DataPipeline._put_handlers(type)`: sink handlers over all registered
sinks; an empty set raises `NoConversionError`. -/
def DataPipeline._put_handlers (p : DataPipeline) (t : TypeId) :
    Except TransformError (List _SinkHandler) :=
  match DataPipeline._create_sink_handlers p.type_graph t p.sinks with
  | .error e => .error e
  | .ok handlers => if handlers.isEmpty then .error .noConversion else .ok handlers

/-- A value stored in one of the two handler caches. Python stores plain
objects, so an entry can hold either kind of handler collection (which is
what lets `put`'s misdirected cache write poison `_get_types`). -/
inductive HandlerEntry where
  | sourceHandlers (hs : List _SourceHandler)
  | sinkHandlers (hs : List _SinkHandler)

/-- The mutable caches of a `DataPipeline`: `self._get_types` and
`self._put_types`. A key mapped to `none` is a cached failed build. -/
structure PipelineState where
  get_types : List (TypeId × Option HandlerEntry)
  put_types : List (TypeId × Option HandlerEntry)

/-- The caches right after `__init__` (both empty dicts). -/
def PipelineState.initial : PipelineState := ⟨[], []⟩

/-- Errors surfacing from `get`/`put`: `NoConversionError`,
`NotFoundError`, the `AttributeError` of invoking a method the cached
handler kind does not have, and an uncaught internal `KeyError`. -/
inductive RunError where
  | noConversion
  | notFound
  | attrError
  | keyError
deriving DecidableEq, Repr

/-- The `try: handlers = self._get_types[type] except KeyError: ...`
block shared by `get` and `get_many`: a cache hit returns the stored
entry; otherwise the handlers are built, a failed build is recorded as
`None`, and the result is stored in `self._get_types`. -/
def DataPipeline.resolveGetHandlers (p : DataPipeline) (st : PipelineState)
    (t : TypeId) : PipelineState × Except RunError (Option HandlerEntry) :=
  match alookup st.get_types t with
  | some entry => (st, .ok entry)
  | none =>
      match DataPipeline._get_handlers p t with
      | .ok hs =>
          ({ st with get_types := ainsert st.get_types t (some (.sourceHandlers hs)) },
           .ok (some (.sourceHandlers hs)))
      | .error .noConversion =>
          ({ st with get_types := ainsert st.get_types t none }, .ok none)
      | .error .keyError => (st, .error .keyError)

/-- The `try: handlers = self._put_types[type] except KeyError: ...`
block shared by `put` and `put_many`. Note the faithful final store: the
built sink handlers (or the `None` marker) are written to
`self._get_types`, not `self._put_types` — exactly what the source does
at pipelines.py lines 522 and 547. -/
def DataPipeline.resolvePutHandlers (p : DataPipeline) (st : PipelineState)
    (t : TypeId) : PipelineState × Except RunError (Option HandlerEntry) :=
  match alookup st.put_types t with
  | some entry => (st, .ok entry)
  | none =>
      match DataPipeline._put_handlers p t with
      | .ok hs =>
          ({ st with get_types := ainsert st.get_types t (some (.sinkHandlers hs)) },
           .ok (some (.sinkHandlers hs)))
      | .error .noConversion =>
          ({ st with get_types := ainsert st.get_types t none }, .ok none)
      | .error .keyError => (st, .error .keyError)

/-- The handler loop of `DataPipeline.get`: try each `_SourceHandler` in
list order, continuing past `NotFoundError`; `.error ()` is the loop
exhausting all handlers. -/
def getLoop : List _SourceHandler → Query → Except Unit (Value × List WriteEvent)
  | [], _ => .error ()
  | h :: rest, q =>
      match h.get q with
      | .ok r => .ok r
      | .error _ => getLoop rest q

/-- `DataPipeline.get(type, query)`: resolve (or build and cache) the
source handlers, raise `NoConversionError` on a cached `None`, then try
the handlers in order; exhausting them raises `NotFoundError`. A cache
entry poisoned with sink handlers raises `AttributeError` at the first
`handler.get` call (or falls through to `NotFoundError` when empty). -/
def DataPipeline.get (p : DataPipeline) (st : PipelineState) (t : TypeId)
    (q : Query) : PipelineState × List WriteEvent × Except RunError Value :=
  match DataPipeline.resolveGetHandlers p st t with
  | (st2, .error e) => (st2, [], .error e)
  | (st2, .ok none) => (st2, [], .error .noConversion)
  | (st2, .ok (some (.sinkHandlers hs))) =>
      (st2, [], if hs.isEmpty then .error .notFound else .error .attrError)
  | (st2, .ok (some (.sourceHandlers hs))) =>
      match getLoop hs q with
      | .ok (v, evs) => (st2, evs, .ok v)
      | .error _ => (st2, [], .error .notFound)

/-- `DataPipeline.put(type, item)`: resolve (or build) the sink handlers
— tolerating absence silently — and write the item through each. A cache
entry holding source handlers would raise `AttributeError` at the first
`handler.put` call. -/
def DataPipeline.put (p : DataPipeline) (st : PipelineState) (t : TypeId)
    (item : Value) : PipelineState × List WriteEvent × Except RunError Unit :=
  match DataPipeline.resolvePutHandlers p st t with
  | (st2, .error e) => (st2, [], .error e)
  | (st2, .ok none) => (st2, [], .ok ())
  | (st2, .ok (some (.sinkHandlers hs))) => (st2, hs.map (fun h => h.put item), .ok ())
  | (st2, .ok (some (.sourceHandlers hs))) =>
      (st2, [], if hs.isEmpty then .ok () else .error .attrError)

/-- `DataPipeline.put_many(type, items)`: as `put`, with the items
materialized once and bulk-written through each handler. -/
def DataPipeline.put_many (p : DataPipeline) (st : PipelineState) (t : TypeId)
    (items : List Value) : PipelineState × List WriteManyEvent × Except RunError Unit :=
  match DataPipeline.resolvePutHandlers p st t with
  | (st2, .error e) => (st2, [], .error e)
  | (st2, .ok none) => (st2, [], .ok ())
  | (st2, .ok (some (.sinkHandlers hs))) => (st2, hs.map (fun h => h.put_many items), .ok ())
  | (st2, .ok (some (.sourceHandlers hs))) =>
      (st2, [], if hs.isEmpty then .ok () else .error .attrError)

/-! ## Aliasing model for literal defaults

For the claim about aliasing of literal default values, queries are
address-tagged: each stored value carries the identity (a `Nat` address)
of the Python object held in the dict, and `deepcopy` allocates a fresh
object. -/

/-- An address-tagged query: each value paired with its object identity. -/
def AQuery : Type := List (String × (Nat × Value))

/-- `copy.deepcopy` under the allocation model: returns a fresh object
(the next address) holding the same data. -/
def deepcopyAlloc (v : Value) (counter : Nat) : (Nat × Value) × Nat :=
  ((counter, v), counter + 1)

/-- `_DefaultValueNode.evaluate` in the literal case, under the
allocation model: `query[self.key] = deepcopy(self.value)`. -/
def _DefaultValueNode.evaluate_alloc (key : String) (v : Value)
    (q : AQuery) (counter : Nat) : AQuery × Nat :=
  let r := deepcopyAlloc v counter
  (ainsert q key r.1, r.2)

/-! ## Concrete instances used to settle the claims -/

/-- `Query.has("k").as_(int)`. -/
def c4validator : Except StructError QueryValidator :=
  match QueryValidator.empty.has "k" with
  | .ok v => v.as_ .tInt
  | .error e => .error e

/-- `Query.can_have("k").and_("j")`. -/
def c7validator : Except StructError QueryValidator :=
  match QueryValidator.empty.can_have "k" with
  | .ok v => v.and_ "j"
  | .error e => .error e

/-- `Query.can_have("k").with_default(7)`. -/
def c8validator : Except StructError QueryValidator :=
  match QueryValidator.empty.can_have "k" with
  | .ok v => v.with_default (.lit (.vInt 7)) none
  | .error e => .error e

/-- A sink accepting exactly type `10`. -/
def sinkOnlyInt : PElement :=
  ⟨0, false, true, some [], some [10], fun _ _ => .error ()⟩

/-- The pipeline built from `[sinkOnlyInt]` and no transformers. -/
def pipeC1 : DataPipeline :=
  ⟨_build_type_graph [] [sinkOnlyInt] [], [], [sinkOnlyInt]⟩

/-- A sink accepting exactly type `20` (and nothing convertible). -/
def sinkOnly20 : PElement :=
  ⟨0, false, true, some [], some [20], fun _ _ => .error ()⟩

/-- The pipeline built from `[sinkOnly20]` and no transformers. -/
def pipeC6 : DataPipeline :=
  ⟨_build_type_graph [] [sinkOnly20] [], [], [sinkOnly20]⟩

/-- A transformer `0 → 1` of cost 1 (first seen). -/
def tCheap : DataTransformer := ⟨1, [(0, [1])], 1, fun _ v => v⟩

/-- A transformer `0 → 1` of cost 3. -/
def tCostly : DataTransformer := ⟨2, [(0, [1])], 3, fun _ v => v⟩

/-- A second transformer `0 → 1` of cost 1 (distinct object, same cost). -/
def tCheapTie : DataTransformer := ⟨3, [(0, [1])], 1, fun _ v => v⟩

/-- The graph from registering the cost-1 then the cost-3 transformer. -/
def gCheapFirst : TypeGraph := _build_type_graph [] [] [tCheap, tCostly]

/-- The graph from registering the cost-3 then the cost-1 transformer. -/
def gCostlyFirst : TypeGraph := _build_type_graph [] [] [tCostly, tCheap]

/-- The graph from registering two cost-1 transformers in order. -/
def gTie : TypeGraph := _build_type_graph [] [] [tCheap, tCheapTie]

/-- An origin for type `10` that always signals `NotFoundError`. -/
def srcNotFound : PElement :=
  ⟨1, true, false, some [10], some [], fun _ _ => .error ()⟩

/-- An origin for type `10` that returns `42`. -/
def srcOk : PElement :=
  ⟨2, true, false, some [10], some [], fun _ _ => .ok (.vInt 42)⟩

/-- The source handler over `srcNotFound` (identity transform, no
fan-out sinks). -/
def shNotFound : _SourceHandler := ⟨srcNotFound, 10, applyChain [], [], []⟩

/-- The source handler over `srcOk`. -/
def shOk : _SourceHandler := ⟨srcOk, 10, applyChain [], [], []⟩

/-- A cache state whose source-handler entry for type `10` holds
`[shNotFound, shOk]`. -/
def stC5 : PipelineState := ⟨[(10, some (.sourceHandlers [shNotFound, shOk]))], []⟩

/-- A sink element (id 0) for the registration-order witness. -/
def snkW : PElement :=
  ⟨0, false, true, some [], some [10], fun _ _ => .error ()⟩

/-- A source element (id 1) for the registration-order witness. -/
def srcW : PElement :=
  ⟨1, true, false, some [10], some [], fun _ _ => .ok (.vInt 0)⟩

/-- The pipeline built from `[snkW, srcW]` (sink registered before the
source) and no transformers. -/
def pipeC9 : DataPipeline :=
  ⟨_build_type_graph [srcW] [snkW] [], [(srcW, [snkW])], [snkW]⟩

/-- The number of source elements in a list (the index of the next
source's entry in the targets list). -/
def countSources (l : List PElement) : Nat :=
  (l.filter (fun e => e.isSource)).length

/-- The sink-set part of one `__init__` walk step. -/
def sinkStep (acc : List PElement) (e : PElement) : List PElement :=
  if e.isSink then insertElem acc e else acc

/-- The cache state after the first `put(10, item)` on `pipeC1`: the sink
handlers landed in `get_types`, `put_types` stayed empty. -/
def stC1after : PipelineState :=
  ⟨[(10, some (.sinkHandlers [⟨sinkOnlyInt, 10, applyChain []⟩]))], []⟩

/-! # Theorems -/

/-- Inserting then looking up the same key. -/
theorem alookup_ainsert {κ α : Type} [DecidableEq κ] (l : List (κ × α)) (k : κ) (x : α) :
    alookup (ainsert l k x) k = some x := by
  induction l with
  | nil => simp [ainsert, alookup]
  | cons hd tl ih =>
      obtain ⟨k0, v0⟩ := hd
      by_cases h : k0 = k <;> simp [ainsert, alookup, h, ih]

/-- Claim C2: resolving a conversion from any type `t` to itself returns
the identity transform (the empty chain) at cost 0, for every type graph,
whether or not `t` is a node of the graph. -/
theorem claim_C2_transform_identity (g : TypeGraph) (t : TypeId) :
    DataPipeline._transform g t t = .ok ([], 0) := by
  simp [DataPipeline._transform, dijkstra_path, _pairwise, buildChain]

/-- Claim C3 (evaluation at the failing input): with two transformers
`0 → 1` of costs 1 and 3, the single retained edge always carries the
cost-1 transformer and resolving `0 → 1` always reports total cost 1, and
a cost tie keeps the first-seen transformer — but when the cost-1
transformer is registered first, the edge's stored `cost` attribute is 3
(the most recently registered transformer's cost), not 1 as the
specification claims. -/
theorem claim_C3_cheapest_edge :
    alookup gCheapFirst.edges (0, 1) = some ⟨3, tCheap⟩ ∧
    alookup gCostlyFirst.edges (0, 1) = some ⟨1, tCheap⟩ ∧
    alookup gTie.edges (0, 1) = some ⟨1, tCheap⟩ ∧
    DataPipeline._transform gCheapFirst 0 1 = .ok ([(tCheap, 1)], 1) ∧
    DataPipeline._transform gCostlyFirst 0 1 = .ok ([(tCheap, 1)], 1) :=
  ⟨rfl, rfl, rfl, rfl, rfl⟩

/-- Claim C1 (evaluation at the failing input): on the pipeline with one
sink accepting type 10, the first `put(10, ·)` builds the sink handlers
but stores them under `_get_types` while `_put_types` stays empty, so a
second `put` finds no cached entry (and rebuilds), and a subsequent
`get(10, ·)` trips over the poisoned source-handler cache entry with an
`AttributeError` — contradicting the claim that the handlers land in the
sink-handler cache and that the source-handler cache is untouched. -/
theorem claim_C1_put_cache_misdirected :
    DataPipeline.init [sinkOnlyInt] [] = some pipeC1 ∧
    DataPipeline.put pipeC1 PipelineState.initial 10 (.vInt 5) =
      (stC1after, [⟨0, 10, .vInt 5⟩], .ok ()) ∧
    stC1after.put_types = [] ∧
    alookup stC1after.put_types 10 = none ∧
    alookup stC1after.get_types 10 =
      some (some (.sinkHandlers [⟨sinkOnlyInt, 10, applyChain []⟩])) ∧
    DataPipeline.put pipeC1 stC1after 10 (.vInt 6) =
      (stC1after, [⟨0, 10, .vInt 6⟩], .ok ()) ∧
    DataPipeline.get pipeC1 stC1after 10 [] = (stC1after, [], .error .attrError) :=
  ⟨rfl, rfl, rfl, rfl, rfl, rfl, rfl⟩

/-- Claim C4 (evaluation at the failing input): for the validator
`has("k").as_(int)`, the empty query raises `MissingKeyError` and
`{"k": 5}` succeeds, as claimed — but `{"k": "x"}` raises the plain
`ValueError` coming out of `int("x")` while the error message is being
formatted (the loop variable `type` shadows the builtin in
`badtype=type(value)`), not a `WrongValueTypeError` naming the actual
type. -/
theorem claim_C4_has_as_int :
    ∃ v, c4validator = .ok v ∧
      v.run [] = ([], .error (.missingKey "k")) ∧
      v.run [("k", .vStr "x")] = ([("k", .vStr "x")], .error .pyValueError) ∧
      v.run [("k", .vInt 5)] = ([("k", .vInt 5)], .ok true) :=
  ⟨⟨[.keyNode ⟨"k", true, some ⟨"k", [.tInt], none⟩⟩], some 0⟩, rfl, rfl, rfl, rfl⟩

/-- Claim C8: for `can_have("k").with_default(7)`, evaluating the empty
query mutates it to `{"k": 7}` and succeeds, evaluating `{"k": 9}` leaves
it unchanged and succeeds; and under the allocation model of `deepcopy`,
two successive evaluations that apply the literal default store objects
with distinct identities (no aliasing of the default across queries). -/
theorem claim_C8_with_default :
    (∃ v, c8validator = .ok v ∧
      v.run [] = ([("k", .vInt 7)], .ok true) ∧
      v.run [("k", .vInt 9)] = ([("k", .vInt 9)], .ok true)) ∧
    ∀ (c : Nat) (q1 q2 : AQuery),
      alookup (_DefaultValueNode.evaluate_alloc "k" (.vInt 7) q1 c).1 "k" =
        some (c, .vInt 7) ∧
      alookup (_DefaultValueNode.evaluate_alloc "k" (.vInt 7) q2
          (_DefaultValueNode.evaluate_alloc "k" (.vInt 7) q1 c).2).1 "k" =
        some (c + 1, .vInt 7) ∧
      c ≠ c + 1 := by
  constructor
  · exact ⟨⟨[.keyNode ⟨"k", false, some ⟨"k", [.tInt], some ⟨"k", .lit (.vInt 7)⟩⟩⟩], some 0⟩,
      rfl, rfl, rfl⟩
  · intro c q1 q2
    refine ⟨?_, ?_, by omega⟩
    · exact alookup_ainsert q1 "k" (c, .vInt 7)
    · exact alookup_ainsert q2 "k" (c + 1, .vInt 7)

/-- Claim C10: a type-constraint node whose key is absent from the query
succeeds returning `True`, evaluating its default child exactly then (the
resulting query is the child's mutation, or the unchanged query without a
child); and when the key is present the node behaves as if it had no
child, so the type check runs only in the present case and the default
only in the absent case. -/
theorem claim_C10_type_node_absent_key (n : _TypeNode) (q : Query)
    (habs : alookup q n.key = none) :
    _TypeNode.evaluate n q =
      ((match n.child with
        | some c => (c.evaluate q).1
        | none => q), .ok true) ∧
    ∀ (q2 : Query) (v : Value), alookup q2 n.key = some v →
      _TypeNode.evaluate n q2 = _TypeNode.evaluate ⟨n.key, n.types, none⟩ q2 := by
  constructor
  · obtain ⟨key, types, child⟩ := n
    simp only at habs
    cases child <;> simp [_TypeNode.evaluate, habs]
  · intro q2 v hv
    obtain ⟨key, types, child⟩ := n
    simp only at hv
    simp [_TypeNode.evaluate, hv]

/-- Witness for C10 at a concrete node and query. -/
theorem claim_C10_type_node_absent_key_witness :
    _TypeNode.evaluate ⟨"k", [.tInt], some ⟨"k", .lit (.vInt 7)⟩⟩ [] =
      ([("k", .vInt 7)], .ok true) :=
  (claim_C10_type_node_absent_key ⟨"k", [.tInt], some ⟨"k", .lit (.vInt 7)⟩⟩ [] rfl).1

/-- An optional bare key node evaluates to `has_key` without error or
mutation. -/
theorem keyNode_evaluate_optional (k : String) (q : Query) :
    VNode.evaluate (.keyNode ⟨k, false, none⟩) q = (q, .ok (alookup q k).isSome) := by
  simp [VNode.evaluate, _KeyNode.evaluate]

/-- The `_AndNode` child loop over bare optional key nodes: no error, no
mutation, and the two accumulators collect "all present so far" and "all
absent so far". -/
theorem evalAndChildren_optKeys (keys : List String) (q : Query) (aT aPF : Bool) :
    evalAndChildren (keys.map (fun k => .keyNode ⟨k, false, none⟩)) q aT aPF =
      (q, .ok (aT && keys.all (fun k => (alookup q k).isSome),
               aPF && keys.all (fun k => (alookup q k).isNone))) := by
  induction keys generalizing aT aPF with
  | nil => simp [evalAndChildren]
  | cons k rest ih =>
      simp only [List.map_cons, evalAndChildren, keyNode_evaluate_optional,
        VNode.falsifiable, Bool.not_false, if_true, List.all_cons]
      rw [ih]
      cases h : alookup q k <;> simp [h, Bool.and_assoc]

/-- Claim C7: for `can_have("k").and_("j")`, evaluating `{"k": 1}` raises
`BoundKeyExistenceError`, evaluating the empty query succeeds, and
evaluating `{"k": 1, "j": 2}` succeeds; in general an `_AndNode` over
falsifiable (bare optional) key nodes succeeds exactly when all keys are
present or all are absent, and raises `BoundKeyExistenceError` on any
mixed outcome. -/
theorem claim_C7_and_all_or_none :
    (∃ v, c7validator = .ok v ∧
      v.run [("k", .vInt 1)] = ([("k", .vInt 1)], .error .boundKeyExistence) ∧
      v.run [] = ([], .ok true) ∧
      v.run [("k", .vInt 1), ("j", .vInt 2)] =
        ([("k", .vInt 1), ("j", .vInt 2)], .ok true)) ∧
    ∀ (keys : List String) (q : Query),
      VNode.evaluate (.andNode (keys.map (fun k => .keyNode ⟨k, false, none⟩))) q =
        (q, if keys.all (fun k => (alookup q k).isSome) ||
               keys.all (fun k => (alookup q k).isNone) then .ok true
            else .error .boundKeyExistence) := by
  constructor
  · exact ⟨⟨[.andNode [.keyNode ⟨"k", false, none⟩, .keyNode ⟨"j", false, none⟩]], some 1⟩,
      rfl, rfl, rfl, rfl⟩
  · intro keys q
    simp only [VNode.evaluate, evalAndChildren_optKeys, Bool.true_and]
    cases h1 : keys.all (fun k => (alookup q k).isSome) <;>
      cases h2 : keys.all (fun k => (alookup q k).isNone)
    all_goals simp

/-- A `getLoop` over handlers whose origins all signal not-found exhausts
the list (performing no writes). -/
theorem getLoop_all_notFound (hs : List _SourceHandler) (q : Query)
    (h : ∀ h2 ∈ hs, h2.source.fetch h2.source_type (pydeepcopyQuery q) = .error ()) :
    getLoop hs q = .error () := by
  induction hs with
  | nil => rfl
  | cons hd tl ih =>
      have hhd := h hd (by simp)
      simp only [getLoop, _SourceHandler.get, hhd]
      exact ih (fun x hx => h x (by simp [hx]))

/-- A `getLoop` whose first succeeding handler is `h` returns `h`'s
converted result together with exactly `h`'s fan-out writes. -/
theorem getLoop_first_success (pre : List _SourceHandler) (h : _SourceHandler)
    (post : List _SourceHandler) (q : Query) (v : Value)
    (hpre : ∀ h2 ∈ pre, h2.source.fetch h2.source_type (pydeepcopyQuery q) = .error ())
    (hok : h.source.fetch h.source_type (pydeepcopyQuery q) = .ok v) :
    getLoop (pre ++ h :: post) q =
      .ok (h.transform v,
        h.before_transform.map (fun s => s.put v) ++
          h.after_transform.map (fun s => s.put (h.transform v))) := by
  induction pre with
  | nil => simp only [List.nil_append, getLoop, _SourceHandler.get, hok]
  | cons hd tl ih =>
      have hhd := hpre hd (by simp)
      simp only [List.cons_append, getLoop, _SourceHandler.get, hhd]
      exact ih (fun x hx => hpre x (by simp [hx]))

/-- Claim C5: when the resolved source-handler list for a type is the
non-empty `hs`, the handlers are tried strictly in list order: if every
origin signals not-found, `get` raises `NotFoundError` with no sink
writes; and if `h` is the first handler whose origin succeeds, `get`
returns `h`'s converted result and only `h`'s sinks receive writes. -/
theorem claim_C5_get_tries_in_order (p : DataPipeline) (st st2 : PipelineState)
    (t : TypeId) (q : Query) (hs : List _SourceHandler)
    (hres : DataPipeline.resolveGetHandlers p st t = (st2, .ok (some (.sourceHandlers hs))))
    (hne : hs ≠ []) :
    ((∀ h2 ∈ hs, h2.source.fetch h2.source_type (pydeepcopyQuery q) = .error ()) →
      DataPipeline.get p st t q = (st2, [], .error .notFound)) ∧
    ∀ (pre : List _SourceHandler) (h : _SourceHandler) (post : List _SourceHandler)
      (v : Value), hs = pre ++ h :: post →
      (∀ h2 ∈ pre, h2.source.fetch h2.source_type (pydeepcopyQuery q) = .error ()) →
      h.source.fetch h.source_type (pydeepcopyQuery q) = .ok v →
      DataPipeline.get p st t q =
        (st2, h.before_transform.map (fun s => s.put v) ++
          h.after_transform.map (fun s => s.put (h.transform v)),
         .ok (h.transform v)) := by
  constructor
  · intro hall
    simp only [DataPipeline.get, hres]
    rw [getLoop_all_notFound hs q hall]
  · intro pre h post v hsplit hpre hok
    simp only [DataPipeline.get, hres]
    subst hsplit
    rw [getLoop_first_success pre h post q v hpre hok]

/-- Witness for C5: two cached handlers for type 10, the first origin
not-found, the second returning 42; `get` returns 42 with no writes. -/
theorem claim_C5_get_tries_in_order_witness :
    DataPipeline.get pipeC1 stC5 10 [] = (stC5, [], .ok (.vInt 42)) := by
  have hpre : ∀ h2 ∈ [shNotFound],
      h2.source.fetch h2.source_type (pydeepcopyQuery ([] : Query)) = .error () := by
    intro h2 hh2
    rw [List.mem_singleton] at hh2
    subst hh2
    rfl
  exact (claim_C5_get_tries_in_order pipeC1 stC5 stC5 10 [] [shNotFound, shOk] rfl
    (List.cons_ne_nil _ _)).2 [shNotFound] shOk [] (.vInt 42) rfl hpre rfl

/-- The best-conversion candidate loop leaves its accumulator untouched
when every candidate fails with `NoConversionError`. -/
theorem bestFromLoop_all_noConv (g : TypeGraph) (t : TypeId) (l : List TypeId)
    (acc : Option (List (DataTransformer × TypeId) × TypeId) × Nat)
    (h : ∀ a ∈ l, DataPipeline._transform g t a = .error .noConversion) :
    bestFromLoop g t l acc = .ok acc := by
  induction l generalizing acc with
  | nil => rfl
  | cons hd tl ih =>
      have hhd := h hd (by simp)
      simp only [bestFromLoop, hhd]
      exact ih _ (fun a ha => h a (by simp [ha]))

/-- `_best_transform_from` raises `NoConversionError` when every
candidate target fails with `NoConversionError`. -/
theorem best_transform_from_all_noConv (g : TypeGraph) (t : TypeId) (l : List TypeId)
    (h : ∀ a ∈ l, DataPipeline._transform g t a = .error .noConversion) :
    DataPipeline._best_transform_from g t l = .error .noConversion := by
  simp only [DataPipeline._best_transform_from]
  rw [bestFromLoop_all_noConv g t l _ h]

/-- The sink loop of `_create_sink_handlers` adds nothing when no sink
accepts the type directly or through any conversion. -/
theorem createSinkHandlersLoop_all_skip (g : TypeGraph) (t : TypeId)
    (sinks : List PElement) (acc : List _SinkHandler)
    (h : ∀ s ∈ sinks, acceptsDirect s t = false ∧
      ∀ a ∈ acceptsList s, DataPipeline._transform g t a = .error .noConversion) :
    createSinkHandlersLoop g t sinks acc = .ok acc := by
  induction sinks generalizing acc with
  | nil => rfl
  | cons hd tl ih =>
      obtain ⟨hdir, hconv⟩ := h hd (by simp)
      simp only [createSinkHandlersLoop, hdir]
      rw [best_transform_from_all_noConv g t (acceptsList hd) hconv]
      simp only [Bool.false_eq_true, if_false]
      exact ih _ (fun s hsm => h s (by simp [hsm]))

/-- Claim C6: when no registered sink accepts `t` directly or via any
conversion path (and `t` has no cached put entry, which holds in every
reachable state since nothing ever writes `_put_types`), both `put` and
`put_many` return normally and perform no sink writes. -/
theorem claim_C6_put_no_destination (p : DataPipeline) (st : PipelineState)
    (t : TypeId) (v : Value) (items : List Value)
    (hput : alookup st.put_types t = none)
    (hsinks : ∀ s ∈ p.sinks, acceptsDirect s t = false ∧
      ∀ a ∈ acceptsList s, DataPipeline._transform p.type_graph t a = .error .noConversion) :
    (∃ st2, DataPipeline.put p st t v = (st2, [], .ok ())) ∧
    (∃ st2, DataPipeline.put_many p st t items = (st2, [], .ok ())) := by
  have hh : DataPipeline._put_handlers p t = .error .noConversion := by
    simp only [DataPipeline._put_handlers, DataPipeline._create_sink_handlers]
    rw [createSinkHandlersLoop_all_skip p.type_graph t p.sinks [] hsinks]
    rfl
  refine ⟨⟨{ st with get_types := ainsert st.get_types t none }, ?_⟩,
          ⟨{ st with get_types := ainsert st.get_types t none }, ?_⟩⟩ <;>
    simp only [DataPipeline.put, DataPipeline.put_many,
      DataPipeline.resolvePutHandlers, hput, hh]

/-- Witness for C6: a pipeline whose only sink accepts type 20 and no
transformers; putting type 10 is a silent no-op. -/
theorem claim_C6_put_no_destination_witness :
    (∃ st2, DataPipeline.put pipeC6 PipelineState.initial 10 (.vInt 1) =
      (st2, [], .ok ())) ∧
    (∃ st2, DataPipeline.put_many pipeC6 PipelineState.initial 10 [.vInt 1] =
      (st2, [], .ok ())) := by
  refine claim_C6_put_no_destination pipeC6 PipelineState.initial 10 (.vInt 1) [.vInt 1] rfl ?_
  intro s hsm
  have hseq : s = sinkOnly20 := by simpa [pipeC6] using hsm
  subst hseq
  refine ⟨rfl, ?_⟩
  intro a ha
  have ha2 : a = 20 := by simpa [acceptsList, sinkOnly20] using ha
  subst ha2
  rfl

/-- The targets list of one `__init__` step: extended by a source with the
current sink snapshot, untouched otherwise. -/
theorem initStep_targets (acc : InitAcc) (e : PElement) :
    (initStep acc e).targets =
      if e.isSource then acc.targets ++ [(e, acc.snks)] else acc.targets := by
  unfold initStep
  cases he : e.isSource <;> cases hk : e.isSink <;> simp [he, hk]

/-- The sink set of one `__init__` step. -/
theorem initStep_snks (acc : InitAcc) (e : PElement) :
    (initStep acc e).snks = sinkStep acc.snks e := by
  unfold initStep sinkStep
  cases he : e.isSource <;> cases hk : e.isSink <;> simp [he, hk]

/-- The `__init__` walk only appends to the targets list. -/
theorem foldl_targets_prefix (l : List PElement) :
    ∀ acc : InitAcc, ∃ suffix, (l.foldl initStep acc).targets = acc.targets ++ suffix := by
  induction l with
  | nil => exact fun acc => ⟨[], by simp⟩
  | cons a l ih =>
      intro acc
      obtain ⟨suf, hsuf⟩ := ih (initStep acc a)
      refine ⟨(if a.isSource then [(a, acc.snks)] else []) ++ suf, ?_⟩
      rw [List.foldl_cons, hsuf, initStep_targets]
      cases a.isSource <;> simp

/-- Element lookup at the length of the left part of an append. -/
theorem get?_append_length {α : Type} (l1 l2 : List α) (x : α) :
    (l1 ++ x :: l2).get? l1.length = some x := by
  induction l1 with
  | nil => rfl
  | cons hd tl ih => simpa using ih

/-- The `__init__` walk records, for the source at position `|pre|` of the
element sequence, exactly the sink set accumulated over `pre`. -/
theorem foldl_initStep_targets_get (pre : List PElement) :
    ∀ (acc : InitAcc) (e : PElement) (post : List PElement), e.isSource = true →
    (((pre ++ e :: post).foldl initStep acc).targets).get?
        (acc.targets.length + countSources pre)
      = some (e, pre.foldl sinkStep acc.snks) := by
  induction pre with
  | nil =>
      intro acc e post hsrc
      simp only [List.nil_append, List.foldl_cons, List.foldl_nil, countSources,
        List.filter_nil, List.length_nil, Nat.add_zero]
      obtain ⟨suffix, hsuf⟩ := foldl_targets_prefix post (initStep acc e)
      rw [hsuf, initStep_targets, hsrc]
      simp only [if_true, List.append_assoc, List.singleton_append]
      exact get?_append_length acc.targets suffix (e, acc.snks)
  | cons a pre ih =>
      intro acc e post hsrc
      simp only [List.cons_append, List.foldl_cons]
      have h := ih (initStep acc a) e post hsrc
      rw [initStep_snks] at h
      have hlen : (initStep acc a).targets.length + countSources pre
          = acc.targets.length + countSources (a :: pre) := by
        rw [initStep_targets]
        cases ha : a.isSource <;>
          simp [countSources, List.filter_cons, ha]
        all_goals omega
      rw [hlen] at h
      simpa [List.foldl_cons] using h

/-- Membership in `insertElem` under id-injectivity: the inserted element
set is the union. -/
theorem mem_insertElem (l : List PElement) (e x : PElement)
    (hinj : ∀ y ∈ l, y.id = e.id → y = e) :
    (x ∈ insertElem l e ↔ x ∈ l ∨ x = e) := by
  unfold insertElem
  by_cases hany : l.any (fun y => y.id = e.id) = true
  · obtain ⟨y, hy, hyid⟩ := List.any_eq_true.mp hany
    have hye : y = e := hinj y hy (by simpa using hyid)
    subst hye
    rw [if_pos hany]
    constructor
    · exact fun hx => Or.inl hx
    · rintro (hx | rfl)
      · exact hx
      · exact hy
  · rw [if_neg hany]
    simp

/-- Membership in the accumulated sink set: under id-injectivity over a
universe `L` containing everything seen, an element is in the fold result
exactly when it was already accumulated or is a sink of the walked
list. -/
theorem mem_foldl_sinkStep (L : List PElement)
    (hinj : ∀ a ∈ L, ∀ b ∈ L, a.id = b.id → a = b) :
    ∀ (pre acc : List PElement), (∀ y ∈ acc, y ∈ L) → (∀ y ∈ pre, y ∈ L) → ∀ x,
      (x ∈ pre.foldl sinkStep acc ↔ x ∈ acc ∨ (x.isSink = true ∧ x ∈ pre)) := by
  intro pre
  induction pre with
  | nil => intro acc hacc hpre x; simp
  | cons a pre ih =>
      intro acc hacc hpre x
      rw [List.foldl_cons]
      have haL : a ∈ L := hpre a (by simp)
      have hmemstep : ∀ z, z ∈ sinkStep acc a ↔ z ∈ acc ∨ (a.isSink = true ∧ z = a) := by
        intro z
        unfold sinkStep
        cases hsk : a.isSink
        · simp
        · rw [if_pos rfl,
            mem_insertElem acc a z (fun y hy hid => hinj y (hacc y hy) a haL hid)]
          simp
      have hsub : ∀ y ∈ sinkStep acc a, y ∈ L := by
        intro y hy
        rcases (hmemstep y).mp hy with hy2 | ⟨_, rfl⟩
        · exact hacc y hy2
        · exact haL
      rw [ih (sinkStep acc a) hsub (fun y hy => hpre y (by simp [hy])) x]
      constructor
      · rintro (hx | ⟨hsk, hmem⟩)
        · rcases (hmemstep x).mp hx with hx2 | ⟨hska, rfl⟩
          · exact Or.inl hx2
          · exact Or.inr ⟨hska, by simp⟩
        · exact Or.inr ⟨hsk, by simp [hmem]⟩
      · rintro (hx | ⟨hsk, hmem⟩)
        · exact Or.inl ((hmemstep x).mpr (Or.inl hx))
        · rcases List.mem_cons.mp hmem with rfl | hmem2
          · exact Or.inl ((hmemstep x).mpr (Or.inr ⟨hsk, rfl⟩))
          · exact Or.inr ⟨hsk, hmem2⟩

/-- Claim C9: in a pipeline built from `pre ++ e :: post` where `e` is an
origin (element ids being object identities, so injective), the targets
entry recorded for this occurrence of `e` — entry number `|sources of
pre|` — snapshots exactly the sink elements of `pre`: destinations
registered strictly before the origin, and no later ones. -/
theorem claim_C9_targets_snapshot (pre post : List PElement) (e : PElement)
    (trs : List DataTransformer) (p : DataPipeline)
    (hinit : DataPipeline.init (pre ++ e :: post) trs = some p)
    (hsrc : e.isSource = true)
    (hinj : ∀ a ∈ pre, ∀ b ∈ pre, a.id = b.id → a = b) :
    ∃ snap, p.sources.get? (countSources pre) = some (e, snap) ∧
      ∀ x, x ∈ snap ↔ (x.isSink = true ∧ x ∈ pre) := by
  simp only [DataPipeline.init] at hinit
  rw [if_neg (by simp)] at hinit
  rw [Option.some.injEq] at hinit
  subst hinit
  refine ⟨pre.foldl sinkStep [], ?_, ?_⟩
  · have h := foldl_initStep_targets_get pre ⟨[], [], []⟩ e post hsrc
    simpa using h
  · intro x
    have h := mem_foldl_sinkStep pre hinj pre [] (by simp) (fun y hy => hy) x
    simpa using h

/-- Witness for C9: the two-element pipeline `[snkW, srcW]` — the sink
registered before the origin is in the origin's snapshot, and nothing
else is. -/
theorem claim_C9_targets_snapshot_witness :
    ∃ snap, pipeC9.sources.get? (countSources [snkW]) = some (srcW, snap) ∧
      ∀ x, x ∈ snap ↔ (x.isSink = true ∧ x ∈ [snkW]) := by
  refine claim_C9_targets_snapshot [snkW] [] srcW [] pipeC9 rfl rfl ?_
  intro a ha b hb hid
  rw [List.mem_singleton] at ha hb
  subst ha
  subst hb
  rfl

/-- The put-side cache resolution never writes `_put_types` (the store
goes to `_get_types`). -/
theorem resolvePutHandlers_preserves_put_types (p : DataPipeline)
    (st : PipelineState) (t : TypeId) :
    (DataPipeline.resolvePutHandlers p st t).1.put_types = st.put_types := by
  unfold DataPipeline.resolvePutHandlers
  cases halk : alookup st.put_types t with
  | some entry => rfl
  | none =>
      cases hp : DataPipeline._put_handlers p t with
      | ok hs => rfl
      | error e => cases e <;> rfl

/-- The get-side cache resolution never writes `_put_types` either. -/
theorem resolveGetHandlers_preserves_put_types (p : DataPipeline)
    (st : PipelineState) (t : TypeId) :
    (DataPipeline.resolveGetHandlers p st t).1.put_types = st.put_types := by
  unfold DataPipeline.resolveGetHandlers
  cases halk : alookup st.get_types t with
  | some entry => rfl
  | none =>
      cases hp : DataPipeline._get_handlers p t with
      | ok hs => rfl
      | error e => cases e <;> rfl

/-- `put` leaves `_put_types` unchanged — so the sink-handler cache is
never populated and every reachable pipeline state has it empty. -/
theorem put_preserves_put_types (p : DataPipeline) (st : PipelineState)
    (t : TypeId) (v : Value) :
    (DataPipeline.put p st t v).1.put_types = st.put_types := by
  have h := resolvePutHandlers_preserves_put_types p st t
  unfold DataPipeline.put
  rcases hr : DataPipeline.resolvePutHandlers p st t with ⟨st2, res⟩
  rw [hr] at h
  rcases res with e | entry
  · exact h
  · rcases entry with _ | entry
    · exact h
    · rcases entry with hs | hs
      · exact h
      · exact h

/-- `put_many` leaves `_put_types` unchanged. -/
theorem put_many_preserves_put_types (p : DataPipeline) (st : PipelineState)
    (t : TypeId) (items : List Value) :
    (DataPipeline.put_many p st t items).1.put_types = st.put_types := by
  have h := resolvePutHandlers_preserves_put_types p st t
  unfold DataPipeline.put_many
  rcases hr : DataPipeline.resolvePutHandlers p st t with ⟨st2, res⟩
  rw [hr] at h
  rcases res with e | entry
  · exact h
  · rcases entry with _ | entry
    · exact h
    · rcases entry with hs | hs
      · exact h
      · exact h

/-- `get` leaves `_put_types` unchanged. -/
theorem get_preserves_put_types (p : DataPipeline) (st : PipelineState)
    (t : TypeId) (q : Query) :
    (DataPipeline.get p st t q).1.put_types = st.put_types := by
  have h := resolveGetHandlers_preserves_put_types p st t
  unfold DataPipeline.get
  split <;> rename_i heq
  · rw [heq] at h
    exact h
  · rw [heq] at h
    exact h
  · rw [heq] at h
    exact h
  · rw [heq] at h
    split
    · exact h
    · exact h

end Datapipelines
